import Mathlib

/- Verification development for the BFCamera pose-overlay application.

   The definitions below are shallow embeddings of:
   - src/utils/geometry.ts          (getDistance, getAngle, getMidpoint)
   - src/types.ts                   (TouchState, TransformState)
   - src/components/PoseSelector.tsx, WireframeOverlay component
                                    (updateTouches, handleTouchStart,
                                     handleTouchMove, handleTouchEnd)
   - src/App.tsx                    (processImageForTransparency pixel loop,
                                     the live-session L/R frame markers, and
                                     the microphone PCM conversion)

   JavaScript numbers are modelled by real numbers ℝ (or ℚ where the code is
   pixel/sample arithmetic).  The single place where the IEEE semantics of
   JavaScript diverges from ℝ in a way the claims can observe is the division
   `newDist / initial.distance` feeding the scale clamp: JavaScript yields
   Infinity or NaN on a zero divisor while Lean's ℝ yields 0.  That path is
   therefore additionally modelled by an explicit JSNum value type carrying
   Infinity/NaN, used by the scale-clamp theorems; theorems stated over the
   plain ℝ model never rely on a zero divisor. -/

/-! ## Data model (src/types.ts) -/

/-- TouchState from src/types.ts: `{ id: number; x: number; y: number }`.
    Touch identifiers are natural numbers (DOM touch identifiers). -/
structure TouchState where
  id : ℕ
  x : ℝ
  y : ℝ

/-- TransformState from src/types.ts:
    `{ x: number; y: number; scale: number; rotation: number }`. -/
structure TransformState where
  x : ℝ
  y : ℝ
  scale : ℝ
  rotation : ℝ

/-- A 2D point `{ x, y }` as returned by getMidpoint. -/
structure Point where
  x : ℝ
  y : ℝ

/-! ## Geometry (src/utils/geometry.ts) -/

/-- JavaScript's Math.atan2, restricted to real (finite, unsigned-zero)
    arguments: the principal angle of the vector (x, y) in (-pi, pi],
    with atan2 0 0 = 0. -/
noncomputable def atan2 (y x : ℝ) : ℝ :=
  if 0 < x then Real.arctan (y / x)
  else if x < 0 then
    if 0 ≤ y then Real.arctan (y / x) + Real.pi
    else Real.arctan (y / x) - Real.pi
  else
    if 0 < y then Real.pi / 2
    else if y < 0 then -(Real.pi / 2)
    else 0

/-- getDistance (src/utils/geometry.ts line 3):
    `Math.hypot(p2.x - p1.x, p2.y - p1.y)`. -/
noncomputable def getDistance (p1 p2 : TouchState) : ℝ :=
  Real.sqrt ((p2.x - p1.x) ^ 2 + (p2.y - p1.y) ^ 2)

/-- getAngle (src/utils/geometry.ts line 7):
    `(Math.atan2(p2.y - p1.y, p2.x - p1.x) * 180) / Math.PI`. -/
noncomputable def getAngle (p1 p2 : TouchState) : ℝ :=
  atan2 (p2.y - p1.y) (p2.x - p1.x) * 180 / Real.pi

/-- getMidpoint (src/utils/geometry.ts line 11):
    coordinate-wise arithmetic mean. -/
noncomputable def getMidpoint (p1 p2 : TouchState) : Point :=
  ⟨(p1.x + p2.x) / 2, (p1.y + p2.y) / 2⟩

/-! ## Gesture engine (src/components/PoseSelector.tsx, WireframeOverlay) -/

/-- The `initialGestureData` snapshot of WireframeOverlay:
    `{ distance: number; angle: number; center: { x, y } }`. -/
structure GestureData where
  distance : ℝ
  angle : ℝ
  center : Point

/-- The mutable state of one WireframeOverlay component together with the
    transform owned by the hosting App: `activeTouches` (ref),
    `initialTransform` (ref), `initialGestureData` (ref, null when absent),
    and `transform` (the App's `poseTransform`, written through
    `onTransformChange`). -/
structure OverlayState where
  activeTouches : List TouchState
  initialTransform : TransformState
  initialGestureData : Option GestureData
  transform : TransformState

/-- One step of the `updateTouches` loop: `map.set(t.identifier, {...})`.
    A JavaScript Map keeps the insertion position of an existing key and
    appends a new key at the end. -/
def insertTouch (m : List TouchState) (t : TouchState) : List TouchState :=
  if m.any (fun u => u.id == t.id) then
    m.map (fun u => if u.id == t.id then t else u)
  else m ++ [t]

/-- updateTouches (PoseSelector.tsx lines 81-88): rebuild the id-keyed touch
    map from the event's touch list, in insertion order. -/
def updateTouches (event : List TouchState) : List TouchState :=
  event.foldl insertTouch []

/-- handleTouchStart (PoseSelector.tsx lines 90-110).  Always records the
    current touch map and the current transform as the gesture baseline;
    records a two-touch reference (distance/angle/midpoint) when exactly two
    touches are active, a degenerate reference (0, 0, touch position) when
    exactly one is active, and otherwise leaves the previous reference in
    place.  It never calls onTransformChange. -/
noncomputable def handleTouchStart (s : OverlayState) (event : List TouchState) :
    OverlayState :=
  let m := updateTouches event
  { activeTouches := m
    initialTransform := s.transform
    initialGestureData :=
      match m with
      | [p0, p1] => some ⟨getDistance p0 p1, getAngle p0 p1, getMidpoint p0 p1⟩
      | [p] => some ⟨0, 0, ⟨p.x, p.y⟩⟩
      | _ => s.initialGestureData
    transform := s.transform }

/-- handleTouchMove (PoseSelector.tsx lines 112-150).  With two touches and a
    stored reference it publishes a full new transform (translate by the
    midpoint delta, scale by the distance ratio clamped into [0.2, 5],
    rotate by the angle delta); with one touch and a stored reference it
    publishes a pure translation; otherwise it only updates the touch map.

    The divisor `initial.distance` is a JavaScript division: for the
    zero-divisor case, which ℝ's convention (x / 0 = 0) does not model, the
    faithful IEEE value of the scale field is given by `scaleAfterMoveJS`
    below; every theorem about this definition's scale field has a nonzero
    reference distance. -/
noncomputable def handleTouchMove (s : OverlayState) (event : List TouchState) :
    OverlayState :=
  let m := updateTouches event
  match m, s.initialGestureData with
  | [t0, t1], some initial =>
    let newDist := getDistance t0 t1
    let newAngle := getAngle t0 t1
    let newCenter := getMidpoint t0 t1
    let initialTrans := s.initialTransform
    { s with
      activeTouches := m
      transform :=
        { x := initialTrans.x + (newCenter.x - initial.center.x)
          y := initialTrans.y + (newCenter.y - initial.center.y)
          scale := max 0.2 (min (initialTrans.scale * (newDist / initial.distance)) 5)
          rotation := initialTrans.rotation + (newAngle - initial.angle) } }
  | [t], some initial =>
    { s with
      activeTouches := m
      transform :=
        { s.transform with
          x := s.initialTransform.x + (t.x - initial.center.x)
          y := s.initialTransform.y + (t.y - initial.center.y) } }
  | _, _ => { s with activeTouches := m }

/-- handleTouchEnd (PoseSelector.tsx lines 152-155): clears the touch map and
    the gesture reference; the transform is left untouched. -/
def handleTouchEnd (s : OverlayState) : OverlayState :=
  { s with activeTouches := [], initialGestureData := none }

/-- INITIAL_TRANSFORM (src/unnamed/part_001, constants): `{0, 0, 1, 0}`. -/
noncomputable def INITIAL_TRANSFORM : TransformState :=
  ⟨0, 0, 1, 0⟩

/-! ## IEEE value model for the scale clamp

    JavaScript division by (positive) zero produces Infinity / -Infinity /
    NaN, and `Math.min` / `Math.max` return NaN as soon as one argument is
    NaN.  `JSNum` records exactly the extra values reachable from finite
    inputs in the expression
    `Math.max(0.2, Math.min(initialTrans.scale * (newDist / initial.distance), 5))`
    (PoseSelector.tsx lines 124 and 132).  Distances returned by Math.hypot
    are nonnegative with sign +0, so `a / 0` with a > 0 is +Infinity. -/

/-- A JavaScript number that is either a real or one of the special IEEE
    values Infinity, -Infinity, NaN. -/
inductive JSNum where
  | num (r : ℝ)
  | posInf
  | negInf
  | nan

/-- JavaScript division of two finite reals (divisor sign +0 when zero,
    as produced by Math.hypot). -/
noncomputable def jsDivReal (a b : ℝ) : JSNum :=
  if b = 0 then
    if 0 < a then JSNum.posInf
    else if a < 0 then JSNum.negInf
    else JSNum.nan
  else JSNum.num (a / b)

/-- JavaScript multiplication of a finite real by a possibly special value
    (the shape `initialTrans.scale * scaleMultiplier`). -/
noncomputable def jsMulRealLeft (a : ℝ) : JSNum → JSNum
  | JSNum.num b => JSNum.num (a * b)
  | JSNum.posInf => if 0 < a then JSNum.posInf else if a < 0 then JSNum.negInf else JSNum.nan
  | JSNum.negInf => if 0 < a then JSNum.negInf else if a < 0 then JSNum.posInf else JSNum.nan
  | JSNum.nan => JSNum.nan

/-- JavaScript Math.min on two values: NaN if either argument is NaN. -/
noncomputable def jsMin : JSNum → JSNum → JSNum
  | JSNum.nan, _ => JSNum.nan
  | _, JSNum.nan => JSNum.nan
  | JSNum.negInf, _ => JSNum.negInf
  | _, JSNum.negInf => JSNum.negInf
  | JSNum.posInf, b => b
  | a, JSNum.posInf => a
  | JSNum.num a, JSNum.num b => JSNum.num (min a b)

/-- JavaScript Math.max on two values: NaN if either argument is NaN. -/
noncomputable def jsMax : JSNum → JSNum → JSNum
  | JSNum.nan, _ => JSNum.nan
  | _, JSNum.nan => JSNum.nan
  | JSNum.posInf, _ => JSNum.posInf
  | _, JSNum.posInf => JSNum.posInf
  | JSNum.negInf, b => b
  | a, JSNum.negInf => a
  | JSNum.num a, JSNum.num b => JSNum.num (max a b)

/-- The scale published by the two-touch branch of handleTouchMove, with the
    IEEE semantics of the JavaScript source (PoseSelector.tsx lines 124, 132):
    `Math.max(0.2, Math.min(scale * (newDist / refDist), 5))`. -/
noncomputable def scaleAfterMoveJS (scale newDist refDist : ℝ) : JSNum :=
  jsMax (JSNum.num 0.2) (jsMin (jsMulRealLeft scale (jsDivReal newDist refDist)) (JSNum.num 5))

/-- A JavaScript number lies in the closed interval [lo, hi]; false for the
    special values (in particular NaN compares false). -/
def JSNum.inRange (lo hi : ℝ) : JSNum → Prop
  | JSNum.num r => lo ≤ r ∧ r ≤ hi
  | _ => False

/-! ## Frame compositing and audio (src/App.tsx) -/

/-- One RGBA pixel as read from ImageData (JavaScript numbers). -/
structure Pixel where
  r : ℚ
  g : ℚ
  b : ℚ
  a : ℚ
deriving DecidableEq

/-- Body of the pixel loop of processImageForTransparency
    (App.tsx lines 53-69): brightness (luma) is `(r + g + b) / 3`, the color
    channels are forced to white, and the alpha is 0 below brightness 20 and
    the brightness itself otherwise. -/
def processPixel (p : Pixel) : Pixel :=
  let brightness := (p.r + p.g + p.b) / 3
  let alpha := if brightness < 20 then 0 else brightness
  ⟨255, 255, 255, alpha⟩

/-- The whole-image pass of processImageForTransparency: the pixel loop maps
    processPixel over every pixel of the ImageData. -/
def processImageForTransparency (pixels : List Pixel) : List Pixel :=
  pixels.map processPixel

/-- A text glyph drawn on the compositing canvas at position (x, y). -/
structure Marker where
  glyph : Char
  x : ℚ
  y : ℚ
deriving DecidableEq

/-- The L/R marker drawing step of the live-session video interval
    (App.tsx lines 519-527): `fillText("R", 20, h/2)` then
    `fillText("L", w - 50, h/2)`.  The interval callback never consults the
    camera facing mode at this step; `frontFacing` records that ambient flag
    so that independence from it can be stated. -/
def drawFrameMarkers (w h : ℚ) (frontFacing : Bool) : List Marker :=
  [⟨'R', 20, h / 2⟩, ⟨'L', w - 50, h / 2⟩]

/-- One sample of the microphone PCM conversion (App.tsx line 425):
    `Math.max(-1, Math.min(1, inputData[i])) * 32767`. -/
def pcmSample (x : ℚ) : ℚ :=
  max (-1) (min 1 x) * 32767

/-- The onaudioprocess conversion loop (App.tsx lines 421-427): every float
    sample of the input buffer converted by pcmSample. -/
def pcmConvert (inputData : List ℚ) : List ℚ :=
  inputData.map pcmSample

/-- Shared initial component state: no touches, identity baseline, no gesture
    reference, identity transform (the state right after a pose is selected). -/
noncomputable def initialOverlayState : OverlayState :=
  ⟨[], INITIAL_TRANSFORM, none, INITIAL_TRANSFORM⟩

/-! ## Helper lemmas -/

theorem updateTouches_nil : updateTouches [] = [] := rfl

theorem updateTouches_singleton (t : TouchState) : updateTouches [t] = [t] := rfl

theorem updateTouches_pair (a b : TouchState) (h : a.id ≠ b.id) :
    updateTouches [a, b] = [a, b] := by
  have hb : (a.id == b.id) = false := by
    simpa using h
  simp [updateTouches, insertTouch, hb]

theorem getDistance_nonneg (p q : TouchState) : 0 ≤ getDistance p q :=
  Real.sqrt_nonneg _

theorem getDistance_self (p : TouchState) : getDistance p p = 0 := by
  simp [getDistance]

theorem getDistance_horizontal (p q : TouchState) (hy : q.y = p.y) (hx : p.x ≤ q.x) :
    getDistance p q = q.x - p.x := by
  unfold getDistance
  rw [hy, sub_self, show (0:ℝ) ^ 2 = 0 from by norm_num, add_zero]
  exact Real.sqrt_sq (by linarith)

theorem atan2_of_pos {y x : ℝ} (hx : 0 < x) : atan2 y x = Real.arctan (y / x) := by
  unfold atan2
  rw [if_pos hx]

theorem atan2_of_neg_nonneg {y x : ℝ} (hx : x < 0) (hy : 0 ≤ y) :
    atan2 y x = Real.arctan (y / x) + Real.pi := by
  unfold atan2
  rw [if_neg (by linarith), if_pos hx, if_pos hy]

theorem atan2_of_neg_neg {y x : ℝ} (hx : x < 0) (hy : y < 0) :
    atan2 y x = Real.arctan (y / x) - Real.pi := by
  unfold atan2
  rw [if_neg (by linarith), if_pos hx, if_neg (by linarith)]

theorem atan2_zero_of_posY {y : ℝ} (hy : 0 < y) : atan2 y 0 = Real.pi / 2 := by
  unfold atan2
  rw [if_neg (lt_irrefl 0), if_neg (lt_irrefl 0), if_pos hy]

theorem atan2_zero_of_negY {y : ℝ} (hy : y < 0) : atan2 y 0 = -(Real.pi / 2) := by
  unfold atan2
  rw [if_neg (lt_irrefl 0), if_neg (lt_irrefl 0), if_neg (by linarith), if_pos hy]

theorem atan2_zero_zero : atan2 0 0 = 0 := by
  unfold atan2
  rw [if_neg (lt_irrefl 0), if_neg (lt_irrefl 0), if_neg (lt_irrefl 0), if_neg (lt_irrefl 0)]

/-- The angle of the reversed vector differs from the angle of the vector by
    exactly pi (in one direction or the other) whenever the vector is nonzero. -/
theorem atan2_antipode (y x : ℝ) (h : ¬(x = 0 ∧ y = 0)) :
    atan2 (-y) (-x) = atan2 y x - Real.pi ∨ atan2 (-y) (-x) = atan2 y x + Real.pi := by
  rcases lt_trichotomy x 0 with hx | rfl | hx
  · rcases le_or_lt 0 y with hy | hy
    · left
      rw [atan2_of_pos (by linarith : (0:ℝ) < -x), neg_div_neg_eq, atan2_of_neg_nonneg hx hy]
      ring
    · right
      rw [atan2_of_pos (by linarith : (0:ℝ) < -x), neg_div_neg_eq, atan2_of_neg_neg hx hy]
      ring
  · have hy : y ≠ 0 := fun hy0 => h ⟨rfl, hy0⟩
    rcases hy.lt_or_lt with hy | hy
    · right
      rw [neg_zero, atan2_zero_of_negY hy, atan2_zero_of_posY (by linarith : (0:ℝ) < -y)]
      ring
    · left
      rw [neg_zero, atan2_zero_of_posY hy, atan2_zero_of_negY (by linarith : -y < 0)]
      ring
  · rcases le_or_lt y 0 with hy | hy
    · right
      rw [atan2_of_pos hx, atan2_of_neg_nonneg (by linarith : -x < 0) (by linarith : (0:ℝ) ≤ -y),
        neg_div_neg_eq]
    · left
      rw [atan2_of_pos hx, atan2_of_neg_neg (by linarith : -x < 0) (by linarith : -y < 0),
        neg_div_neg_eq]

theorem getAngle_east (p q : TouchState) (hy : q.y = p.y) (hx : p.x < q.x) :
    getAngle p q = 0 := by
  unfold getAngle
  rw [hy, sub_self, atan2_of_pos (by linarith : (0:ℝ) < q.x - p.x)]
  simp

theorem getAngle_west (p q : TouchState) (hy : q.y = p.y) (hx : q.x < p.x) :
    getAngle p q = 180 := by
  unfold getAngle
  rw [hy, sub_self, atan2_of_neg_nonneg (by linarith : q.x - p.x < 0) le_rfl]
  rw [zero_div, Real.arctan_zero, zero_add, mul_comm, mul_div_assoc,
    div_self Real.pi_ne_zero, mul_one]

/-- A move event processed while no gesture reference is stored leaves the
    transform untouched, whatever the touch list is. -/
theorem handleTouchMove_no_reference (s : OverlayState) (e : List TouchState)
    (h : s.initialGestureData = none) :
    (handleTouchMove s e).transform = s.transform := by
  rcases e' : updateTouches e with _ | ⟨t0, _ | ⟨t1, _ | _⟩⟩ <;>
    simp [handleTouchMove, h, e']

/-! ## Claim C7 -/

/-- C7 counterexample: for a = (0,0) and b = (1,0) the source's getAngle gives
    angle(a,b) = 0 but angle(b,a) = 180, and 0 is not -180, so the claimed
    identity angle(a,b) = -angle(b,a) fails on these finite points. -/
theorem claim7_angle_antisymm_cex :
    getAngle ⟨1, 0, 0⟩ ⟨2, 1, 0⟩ = 0 ∧ getAngle ⟨2, 1, 0⟩ ⟨1, 0, 0⟩ = 180 ∧
    ¬(getAngle ⟨1, 0, 0⟩ ⟨2, 1, 0⟩ = -getAngle ⟨2, 1, 0⟩ ⟨1, 0, 0⟩) := by
  have h1 : getAngle (⟨1, 0, 0⟩ : TouchState) ⟨2, 1, 0⟩ = 0 :=
    getAngle_east ⟨1, 0, 0⟩ ⟨2, 1, 0⟩ rfl (by norm_num)
  have h2 : getAngle (⟨2, 1, 0⟩ : TouchState) ⟨1, 0, 0⟩ = 180 :=
    getAngle_west ⟨2, 1, 0⟩ ⟨1, 0, 0⟩ rfl (by norm_num)
  refine ⟨h1, h2, ?_⟩
  rw [h1, h2]
  norm_num

/-- C7 (amended): midpoint and distance are symmetric in their arguments for
    all finite points; the angle is not antisymmetric in general — for every
    pair of points either angle(a,b) = -angle(b,a) (as happens when a = b) or
    the two angles of the source's getAngle differ by exactly 180 degrees. -/
theorem claim7_geometry_symm (a b : TouchState) :
    getMidpoint a b = getMidpoint b a ∧
    getDistance a b = getDistance b a ∧
    (getAngle a b = -getAngle b a ∨ getAngle a b = getAngle b a + 180 ∨
      getAngle a b = getAngle b a - 180) := by
  refine ⟨?_, ?_, ?_⟩
  · simp [getMidpoint, add_comm]
  · unfold getDistance
    congr 1
    ring
  · by_cases hxy : b.x - a.x = 0 ∧ b.y - a.y = 0
    · left
      unfold getAngle
      rw [show a.y - b.y = -(b.y - a.y) from by ring,
        show a.x - b.x = -(b.x - a.x) from by ring, hxy.1, hxy.2, neg_zero, atan2_zero_zero]
      simp
    · have h2 := atan2_antipode (b.y - a.y) (b.x - a.x) hxy
      unfold getAngle
      rw [show a.y - b.y = -(b.y - a.y) from by ring,
        show a.x - b.x = -(b.x - a.x) from by ring]
      rcases h2 with h2 | h2
      · right; left
        rw [h2]
        field_simp
        ring
      · right; right
        rw [h2]
        field_simp
        ring

/-! ## Claim C1 -/

/-- C1 counterexample: with both reference touches at the same point and both
    current touches at the same point (reference distance 0 and new distance
    0) and baseline scale 1, the IEEE value of the published scale is NaN
    (0/0 is NaN and Math.min/Math.max propagate it), which is not within
    [0.2, 5]. -/
theorem claim1_scale_clamp_cex :
    ¬ JSNum.inRange 0.2 5
      (scaleAfterMoveJS 1 (getDistance ⟨1, 0, 0⟩ ⟨2, 0, 0⟩) (getDistance ⟨1, 0, 0⟩ ⟨2, 0, 0⟩)) := by
  have hd : getDistance (⟨1, 0, 0⟩ : TouchState) ⟨2, 0, 0⟩ = 0 := by
    simp [getDistance]
  rw [hd]
  have e : scaleAfterMoveJS 1 0 0 = JSNum.nan := by
    unfold scaleAfterMoveJS jsDivReal
    rw [if_pos rfl, if_neg (lt_irrefl (0:ℝ)), if_neg (lt_irrefl (0:ℝ))]
    rfl
  rw [e]
  simp [JSNum.inRange]

/-- C1 (amended): for every two-touch move with an existing two-touch
    reference and positive baseline scale, the published scale is a real
    number within [0.2, 5.0] regardless of the magnitudes of the touch
    coordinates, provided the reference distance and the new distance are not
    both zero; in the remaining degenerate case (both touch pairs coincident)
    the published scale is NaN. -/
theorem claim1_scale_clamped (s : ℝ) (t0 t1 r0 r1 : TouchState) (hs : 0 < s)
    (h : ¬(getDistance t0 t1 = 0 ∧ getDistance r0 r1 = 0)) :
    JSNum.inRange 0.2 5 (scaleAfterMoveJS s (getDistance t0 t1) (getDistance r0 r1)) := by
  set d2 := getDistance t0 t1 with hd2def
  set d1 := getDistance r0 r1 with hd1def
  have hd2 : 0 ≤ d2 := by rw [hd2def]; exact getDistance_nonneg t0 t1
  have hd1 : 0 ≤ d1 := by rw [hd1def]; exact getDistance_nonneg r0 r1
  rcases eq_or_lt_of_le hd1 with h10 | h1pos
  · have hd2pos : 0 < d2 := by
      rcases eq_or_lt_of_le hd2 with h20 | h2pos
      · exact absurd ⟨h20.symm, h10.symm⟩ h
      · exact h2pos
    have e1 : jsDivReal d2 d1 = JSNum.posInf := by
      unfold jsDivReal
      rw [if_pos h10.symm, if_pos hd2pos]
    have e2 : jsMulRealLeft s JSNum.posInf = JSNum.posInf := by
      simp [jsMulRealLeft, hs]
    rw [scaleAfterMoveJS, e1, e2]
    exact ⟨le_max_left _ _, max_le (by norm_num) le_rfl⟩
  · have e1 : jsDivReal d2 d1 = JSNum.num (d2 / d1) := by
      unfold jsDivReal
      rw [if_neg h1pos.ne']
    rw [scaleAfterMoveJS, e1]
    exact ⟨le_max_left _ _, max_le (by norm_num) (min_le_right _ _)⟩

/-- C1 witness: baseline scale 1, current touches (0,0) and (2,0), reference
    touches (0,0) and (1,0) — the reference distance is 1, not 0, so the
    amended theorem applies and the scale is within [0.2, 5]. -/
theorem claim1_scale_clamped_witness :
    JSNum.inRange 0.2 5
      (scaleAfterMoveJS 1 (getDistance ⟨1, 0, 0⟩ ⟨2, 2, 0⟩) (getDistance ⟨1, 0, 0⟩ ⟨2, 1, 0⟩)) :=
  claim1_scale_clamped 1 ⟨1, 0, 0⟩ ⟨2, 2, 0⟩ ⟨1, 0, 0⟩ ⟨2, 1, 0⟩ (by norm_num)
    (fun hc => by
      have hr := hc.2
      rw [getDistance_horizontal ⟨1, 0, 0⟩ ⟨2, 1, 0⟩ rfl (by norm_num)] at hr
      norm_num at hr)

/-! ## Claim C2 -/

/-- C2 counterexample: with reference distance 0 (both reference touches at
    (0,0)), new distance 100 and baseline scale 1, the code publishes scale 5
    (the multiplier is Infinity, not the claimed guard value 1); the claimed
    result — the clamped baseline scale, max(0.2, min(1*1, 5)) = 1 — differs. -/
theorem claim2_zero_guard_cex :
    scaleAfterMoveJS 1 (getDistance ⟨1, 0, 0⟩ ⟨2, 100, 0⟩) (getDistance ⟨1, 0, 0⟩ ⟨1, 0, 0⟩)
      = JSNum.num 5 ∧
    (5 : ℝ) ≠ max 0.2 (min ((1:ℝ) * 1) 5) := by
  constructor
  · have ht : getDistance (⟨1, 0, 0⟩ : TouchState) ⟨2, 100, 0⟩ = 100 := by
      rw [getDistance_horizontal ⟨1, 0, 0⟩ ⟨2, 100, 0⟩ rfl (by norm_num)]
      norm_num
    rw [ht, getDistance_self]
    have e1 : jsDivReal 100 0 = JSNum.posInf := by
      unfold jsDivReal
      rw [if_pos rfl, if_pos (by norm_num : (0:ℝ) < 100)]
    have e2 : jsMulRealLeft 1 JSNum.posInf = JSNum.posInf := by
      norm_num [jsMulRealLeft]
    rw [scaleAfterMoveJS, e1, e2,
      show jsMin JSNum.posInf (JSNum.num 5) = JSNum.num 5 from rfl,
      show jsMax (JSNum.num 0.2) (JSNum.num 5) = JSNum.num (max 0.2 5) from rfl,
      show max (0.2:ℝ) 5 = 5 from by norm_num]
  · norm_num [min_def, max_def]

/-- C2 (amended): the code applies no guard when the stored referenceDistance
    is 0: with a positive baseline scale, a two-touch move whose new distance
    is nonzero publishes scale 5 (Infinity clamped by Math.min), and a move
    whose new distance is also zero publishes NaN; the computation is total
    either way, so no error is raised for the degenerate geometry. -/
theorem claim2_zero_reference (s : ℝ) (t0 t1 r : TouchState) (hs : 0 < s) :
    (getDistance t0 t1 ≠ 0 →
      scaleAfterMoveJS s (getDistance t0 t1) (getDistance r r) = JSNum.num 5) ∧
    (getDistance t0 t1 = 0 →
      scaleAfterMoveJS s (getDistance t0 t1) (getDistance r r) = JSNum.nan) := by
  rw [getDistance_self]
  constructor
  · intro hne
    have hpos : 0 < getDistance t0 t1 :=
      lt_of_le_of_ne (getDistance_nonneg t0 t1) (Ne.symm hne)
    have e1 : jsDivReal (getDistance t0 t1) 0 = JSNum.posInf := by
      unfold jsDivReal
      rw [if_pos rfl, if_pos hpos]
    have e2 : jsMulRealLeft s JSNum.posInf = JSNum.posInf := by
      simp [jsMulRealLeft, hs]
    rw [scaleAfterMoveJS, e1, e2,
      show jsMin JSNum.posInf (JSNum.num 5) = JSNum.num 5 from rfl,
      show jsMax (JSNum.num 0.2) (JSNum.num 5) = JSNum.num (max 0.2 5) from rfl,
      show max (0.2:ℝ) 5 = 5 from by norm_num]
  · intro h0
    rw [h0]
    have e1 : jsDivReal 0 0 = JSNum.nan := by
      unfold jsDivReal
      rw [if_pos rfl, if_neg (lt_irrefl (0:ℝ)), if_neg (lt_irrefl (0:ℝ))]
    rw [scaleAfterMoveJS, e1]
    rfl

/-- C2 witness: baseline scale 1, current touches (0,0) and (2,0) (new
    distance 2, nonzero), reference touches coincident at (0,0): the
    published scale is 5. -/
theorem claim2_zero_reference_witness :
    scaleAfterMoveJS 1 (getDistance ⟨1, 0, 0⟩ ⟨2, 2, 0⟩) (getDistance ⟨1, 0, 0⟩ ⟨1, 0, 0⟩)
      = JSNum.num 5 :=
  (claim2_zero_reference 1 ⟨1, 0, 0⟩ ⟨2, 2, 0⟩ ⟨1, 0, 0⟩ (by norm_num)).1
    (by
      rw [getDistance_horizontal ⟨1, 0, 0⟩ ⟨2, 2, 0⟩ rfl (by norm_num)]
      norm_num)

/-! ## Claim C3 -/

/-- Full evaluation of the spec's two-touch scenario: start at (0,0), (100,0)
    (distance 100, angle 0, midpoint (50,0)) with baseline {0,0,1,0}, move to
    (0,0), (200,0) (distance 200, angle 0, midpoint (100,0)). -/
theorem scenario_two_touch_eval :
    (handleTouchMove (handleTouchStart initialOverlayState [⟨1, 0, 0⟩, ⟨2, 100, 0⟩])
        [⟨1, 0, 0⟩, ⟨2, 200, 0⟩]).transform = ⟨50, 0, 2, 0⟩ := by
  have hu1 : updateTouches [(⟨1, 0, 0⟩ : TouchState), ⟨2, 100, 0⟩] = [⟨1, 0, 0⟩, ⟨2, 100, 0⟩] :=
    updateTouches_pair _ _ (by decide)
  have hu2 : updateTouches [(⟨1, 0, 0⟩ : TouchState), ⟨2, 200, 0⟩] = [⟨1, 0, 0⟩, ⟨2, 200, 0⟩] :=
    updateTouches_pair _ _ (by decide)
  have hd1 : getDistance (⟨1, 0, 0⟩ : TouchState) ⟨2, 100, 0⟩ = 100 := by
    rw [getDistance_horizontal ⟨1, 0, 0⟩ ⟨2, 100, 0⟩ rfl (by norm_num)]
    norm_num
  have hd2 : getDistance (⟨1, 0, 0⟩ : TouchState) ⟨2, 200, 0⟩ = 200 := by
    rw [getDistance_horizontal ⟨1, 0, 0⟩ ⟨2, 200, 0⟩ rfl (by norm_num)]
    norm_num
  have ha1 : getAngle (⟨1, 0, 0⟩ : TouchState) ⟨2, 100, 0⟩ = 0 :=
    getAngle_east _ _ rfl (by norm_num)
  have ha2 : getAngle (⟨1, 0, 0⟩ : TouchState) ⟨2, 200, 0⟩ = 0 :=
    getAngle_east _ _ rfl (by norm_num)
  simp only [handleTouchStart, handleTouchMove, initialOverlayState, INITIAL_TRANSFORM,
    hu1, hu2, hd1, hd2, ha1, ha2, getMidpoint]
  norm_num [TransformState.mk.injEq, min_def, max_def]

/-- C3 counterexample: in the spec's scenario the published x is 50, not the
    claimed 0 — the two-touch midpoint moves from (50,0) to (100,0), so the
    center does not stay unchanged. -/
theorem claim3_center_cex :
    (handleTouchMove (handleTouchStart initialOverlayState [⟨1, 0, 0⟩, ⟨2, 100, 0⟩])
        [⟨1, 0, 0⟩, ⟨2, 200, 0⟩]).transform.x = 50 ∧ (50 : ℝ) ≠ 0 := by
  refine ⟨?_, by norm_num⟩
  rw [scenario_two_touch_eval]

/-- C3 (amended): the gesture starting at (0,0), (100,0) with baseline
    {0,0,1,0} and moving to (0,0), (200,0) yields the Transform
    {x:50, y:0, scale:2, rotation:0} — the scale doubles and the rotation is
    unchanged, while x follows the midpoint displacement (50,0) → (100,0). -/
theorem claim3_scenario :
    (handleTouchMove (handleTouchStart initialOverlayState [⟨1, 0, 0⟩, ⟨2, 100, 0⟩])
        [⟨1, 0, 0⟩, ⟨2, 200, 0⟩]).transform = ⟨50, 0, 2, 0⟩ :=
  scenario_two_touch_eval

/-! ## Claim C4 -/

/-- C4 counterexample: after a two-touch start, the 2→1 transition is handled
    by handleTouchEnd (the touchend handler), which leaves no gesture
    baseline at all — the reference that existed before the transition is
    cleared, not recomputed. -/
theorem claim4_rebase_cex :
    (handleTouchEnd (handleTouchStart initialOverlayState [⟨1, 0, 0⟩, ⟨2, 100, 0⟩])).initialGestureData
      = none ∧
    (handleTouchStart initialOverlayState [⟨1, 0, 0⟩, ⟨2, 100, 0⟩]).initialGestureData ≠ none := by
  have hu : updateTouches [(⟨1, 0, 0⟩ : TouchState), ⟨2, 100, 0⟩] = [⟨1, 0, 0⟩, ⟨2, 100, 0⟩] :=
    updateTouches_pair _ _ (by decide)
  constructor
  · rfl
  · simp [handleTouchStart, hu]

/-- C4 (amended): on every touch-add transition (touchstart, e.g. 1→2) the
    baseline is recomputed from the transform as it stood immediately before
    the transition — initialTransform is set to the current transform, the
    two-touch reference is recomputed from the new touch pair (or the
    one-touch reference from the single touch) — and the handler leaves x/y
    unchanged; on a touch-lift transition (touchend/touchcancel, e.g. 2→1)
    the baseline is cleared rather than recomputed, the transform is left
    unchanged, and subsequent moves are no-ops until the next touchstart, so
    neither kind of transition introduces a discontinuity in x/y. -/
theorem claim4_rebase (s : OverlayState) (a b t : TouchState) (e : List TouchState)
    (h : a.id ≠ b.id) :
    ((handleTouchStart s [a, b]).initialTransform = s.transform ∧
      (handleTouchStart s [a, b]).initialGestureData
        = some ⟨getDistance a b, getAngle a b, getMidpoint a b⟩ ∧
      (handleTouchStart s [a, b]).transform = s.transform) ∧
    ((handleTouchStart s [t]).initialTransform = s.transform ∧
      (handleTouchStart s [t]).initialGestureData = some ⟨0, 0, ⟨t.x, t.y⟩⟩ ∧
      (handleTouchStart s [t]).transform = s.transform) ∧
    ((handleTouchEnd s).initialGestureData = none ∧
      (handleTouchEnd s).transform = s.transform ∧
      (handleTouchMove (handleTouchEnd s) e).transform = s.transform) := by
  have hu := updateTouches_pair a b h
  refine ⟨⟨?_, ?_, ?_⟩, ⟨?_, ?_, ?_⟩, rfl, rfl, ?_⟩
  · simp [handleTouchStart, hu]
  · simp [handleTouchStart, hu]
  · simp [handleTouchStart, hu]
  · simp [handleTouchStart, updateTouches_singleton]
  · simp [handleTouchStart, updateTouches_singleton]
  · simp [handleTouchStart, updateTouches_singleton]
  · exact handleTouchMove_no_reference _ e rfl

/-- C4 witness: the amended statement at the initial state with touches
    (0,0) and (100,0), single touch (7,7), and a one-touch move after the
    lift. -/
theorem claim4_rebase_witness :
    ((handleTouchStart initialOverlayState [⟨1, 0, 0⟩, ⟨2, 100, 0⟩]).initialTransform
        = initialOverlayState.transform ∧
      (handleTouchStart initialOverlayState [⟨1, 0, 0⟩, ⟨2, 100, 0⟩]).initialGestureData
        = some ⟨getDistance ⟨1, 0, 0⟩ ⟨2, 100, 0⟩, getAngle ⟨1, 0, 0⟩ ⟨2, 100, 0⟩,
            getMidpoint ⟨1, 0, 0⟩ ⟨2, 100, 0⟩⟩ ∧
      (handleTouchStart initialOverlayState [⟨1, 0, 0⟩, ⟨2, 100, 0⟩]).transform
        = initialOverlayState.transform) ∧
    ((handleTouchStart initialOverlayState [⟨3, 7, 7⟩]).initialTransform
        = initialOverlayState.transform ∧
      (handleTouchStart initialOverlayState [⟨3, 7, 7⟩]).initialGestureData
        = some ⟨0, 0, ⟨(⟨3, 7, 7⟩ : TouchState).x, (⟨3, 7, 7⟩ : TouchState).y⟩⟩ ∧
      (handleTouchStart initialOverlayState [⟨3, 7, 7⟩]).transform
        = initialOverlayState.transform) ∧
    ((handleTouchEnd initialOverlayState).initialGestureData = none ∧
      (handleTouchEnd initialOverlayState).transform = initialOverlayState.transform ∧
      (handleTouchMove (handleTouchEnd initialOverlayState) [⟨2, 100, 0⟩]).transform
        = initialOverlayState.transform) :=
  claim4_rebase initialOverlayState ⟨1, 0, 0⟩ ⟨2, 100, 0⟩ ⟨3, 7, 7⟩ [⟨2, 100, 0⟩] (by decide)

/-! ## Claim C5 -/

/-- C5 counterexample: a reference taken at two touches (0,0), (100,0)
    (midpoint (50,0)) followed by a move carrying a single touch (0,0) — a
    touch-count change with no intervening touchstart — is not a no-op: the
    one-touch branch runs against the stale two-touch center and publishes
    x = -50 where the transform before the move had x = 0. -/
theorem claim5_stale_count_cex :
    (handleTouchMove (handleTouchStart initialOverlayState [⟨1, 0, 0⟩, ⟨2, 100, 0⟩])
        [⟨1, 0, 0⟩]).transform.x = -50 ∧
    (handleTouchStart initialOverlayState [⟨1, 0, 0⟩, ⟨2, 100, 0⟩]).transform.x = 0 := by
  have hu : updateTouches [(⟨1, 0, 0⟩ : TouchState), ⟨2, 100, 0⟩] = [⟨1, 0, 0⟩, ⟨2, 100, 0⟩] :=
    updateTouches_pair _ _ (by decide)
  constructor
  · simp only [handleTouchStart, handleTouchMove, initialOverlayState, INITIAL_TRANSFORM, hu,
      updateTouches_singleton, getMidpoint]
    norm_num
  · simp [handleTouchStart, initialOverlayState, INITIAL_TRANSFORM]

/-- C5 (amended): onGestureMove leaves the current Transform unchanged
    whenever no gesture reference exists (no prior onGestureStart, or the
    reference was cleared by onGestureEnd), whenever zero touches are active,
    and whenever three or more touches are active; there is however no
    staleness check — when a reference exists and one or two touches are
    active, the matching branch executes even if the touch count changed
    since the reference was taken. -/
theorem claim5_noop_cases (s : OverlayState) (e : List TouchState)
    (h : s.initialGestureData = none ∨ updateTouches e = [] ∨
      3 ≤ (updateTouches e).length) :
    (handleTouchMove s e).transform = s.transform := by
  rcases hg : s.initialGestureData with _ | g
  · exact handleTouchMove_no_reference s e hg
  · rcases e' : updateTouches e with _ | ⟨t0, _ | ⟨t1, _ | ⟨u, rest⟩⟩⟩
    · simp [handleTouchMove, hg, e']
    · exfalso
      rcases h with h | h | h
      · rw [hg] at h
        exact Option.noConfusion h
      · rw [e'] at h
        exact List.noConfusion h
      · rw [e'] at h
        norm_num at h
    · exfalso
      rcases h with h | h | h
      · rw [hg] at h
        exact Option.noConfusion h
      · rw [e'] at h
        exact List.noConfusion h
      · rw [e'] at h
        norm_num at h
    · simp [handleTouchMove, hg, e']

/-- C5 witness: a one-touch move on the initial state (which has no gesture
    reference) leaves the transform unchanged. -/
theorem claim5_noop_cases_witness :
    (handleTouchMove initialOverlayState [⟨1, 5, 5⟩]).transform
      = initialOverlayState.transform :=
  claim5_noop_cases initialOverlayState [⟨1, 5, 5⟩] (Or.inl rfl)

/-! ## Claim C6 -/

/-- C6: the rotation published by any two-touch move is exactly the baseline
    rotation plus the raw angle delta — never wrapped into [-180, 180] — and
    across two consecutive gestures (start, move, end, start, move) the two
    deltas accumulate by plain addition, so two consecutive gestures whose
    deltas are each 200 degrees end at baseline + 400, not 40. -/
theorem claim6_rotation_unbounded (s : OverlayState) (a b c d p q u v : TouchState)
    (hab : a.id ≠ b.id) (hcd : c.id ≠ d.id) (hpq : p.id ≠ q.id) (huv : u.id ≠ v.id) :
    (handleTouchMove (handleTouchStart s [a, b]) [c, d]).transform.rotation
      = s.transform.rotation + (getAngle c d - getAngle a b) ∧
    (handleTouchMove
        (handleTouchStart
          (handleTouchEnd (handleTouchMove (handleTouchStart s [a, b]) [c, d]))
          [p, q]) [u, v]).transform.rotation
      = s.transform.rotation + (getAngle c d - getAngle a b)
          + (getAngle u v - getAngle p q) := by
  have h1 := updateTouches_pair a b hab
  have h2 := updateTouches_pair c d hcd
  have h3 := updateTouches_pair p q hpq
  have h4 := updateTouches_pair u v huv
  constructor
  · simp only [handleTouchStart, handleTouchMove, h1, h2]
  · simp only [handleTouchStart, handleTouchMove, handleTouchEnd, h1, h2, h3, h4]

/-- C6 witness: two consecutive gestures on the initial state, each from the
    pair (0,0), (100,0) to the pair (0,0), (200,0); the final rotation is the
    initial rotation plus both raw angle deltas. -/
theorem claim6_rotation_unbounded_witness :
    (handleTouchMove (handleTouchStart initialOverlayState [⟨1, 0, 0⟩, ⟨2, 100, 0⟩])
        [⟨1, 0, 0⟩, ⟨2, 200, 0⟩]).transform.rotation
      = initialOverlayState.transform.rotation
          + (getAngle ⟨1, 0, 0⟩ ⟨2, 200, 0⟩ - getAngle ⟨1, 0, 0⟩ ⟨2, 100, 0⟩) ∧
    (handleTouchMove
        (handleTouchStart
          (handleTouchEnd (handleTouchMove
            (handleTouchStart initialOverlayState [⟨1, 0, 0⟩, ⟨2, 100, 0⟩])
            [⟨1, 0, 0⟩, ⟨2, 200, 0⟩]))
          [⟨1, 0, 0⟩, ⟨2, 100, 0⟩]) [⟨1, 0, 0⟩, ⟨2, 200, 0⟩]).transform.rotation
      = initialOverlayState.transform.rotation
          + (getAngle ⟨1, 0, 0⟩ ⟨2, 200, 0⟩ - getAngle ⟨1, 0, 0⟩ ⟨2, 100, 0⟩)
          + (getAngle ⟨1, 0, 0⟩ ⟨2, 200, 0⟩ - getAngle ⟨1, 0, 0⟩ ⟨2, 100, 0⟩) :=
  claim6_rotation_unbounded initialOverlayState ⟨1, 0, 0⟩ ⟨2, 100, 0⟩ ⟨1, 0, 0⟩ ⟨2, 200, 0⟩
    ⟨1, 0, 0⟩ ⟨2, 100, 0⟩ ⟨1, 0, 0⟩ ⟨2, 200, 0⟩ (by decide) (by decide) (by decide) (by decide)

/-! ## Claim C8 -/

/-- C8: the transparency post-process maps every pixel to pure white with an
    alpha that is 0 when the luma (r+g+b)/3 is below 20 and the luma itself
    otherwise; in particular r=g=b=10 (luma 10) yields alpha 0 and
    r=g=b=200 (luma 200) yields alpha 200 with color forced to white. -/
theorem claim8_transparency (p : Pixel) :
    ((processPixel p).r = 255 ∧ (processPixel p).g = 255 ∧ (processPixel p).b = 255) ∧
    (((p.r + p.g + p.b) / 3 < 20 ∧ (processPixel p).a = 0) ∨
      (¬((p.r + p.g + p.b) / 3 < 20) ∧ (processPixel p).a = (p.r + p.g + p.b) / 3)) ∧
    processPixel ⟨10, 10, 10, 255⟩ = ⟨255, 255, 255, 0⟩ ∧
    processPixel ⟨200, 200, 200, 0⟩ = ⟨255, 255, 255, 200⟩ := by
  refine ⟨⟨rfl, rfl, rfl⟩, ?_, by norm_num [processPixel, Pixel.mk.injEq],
    by norm_num [processPixel, Pixel.mk.injEq]⟩
  by_cases h : (p.r + p.g + p.b) / 3 < 20
  · exact Or.inl ⟨h, by simp [processPixel, h]⟩
  · exact Or.inr ⟨h, by simp [processPixel, h]⟩

/-! ## Claim C9 -/

/-- C9: every composited AI frame draws the glyph R at the left edge of the
    raster (x = 20) and the glyph L at the right edge (x = width - 50), both
    at mid-height, and this placement is literally the same for both camera
    facing modes — the marker step does not consult the mirror flag. -/
theorem claim9_markers_fixed (w h : ℚ) (front1 front2 : Bool) :
    drawFrameMarkers w h front1 = [⟨'R', 20, h / 2⟩, ⟨'L', w - 50, h / 2⟩] ∧
    drawFrameMarkers w h front1 = drawFrameMarkers w h front2 :=
  ⟨rfl, rfl⟩

/-! ## Claim C10 -/

/-- C10: every sample produced by the microphone PCM conversion — the input
    float clamped into [-1, 1] and then scaled by 32767 — lies within
    [-32767, 32767], inside the Int16 range, for every input buffer. -/
theorem claim10_pcm_range (inputData : List ℚ) (y : ℚ)
    (hy : y ∈ pcmConvert inputData) :
    -32767 ≤ y ∧ y ≤ 32767 := by
  rcases List.mem_map.mp hy with ⟨x, _, rfl⟩
  unfold pcmSample
  have h1 : -1 ≤ max (-1) (min 1 x) := le_max_left _ _
  have h2 : max (-1) (min 1 x) ≤ 1 := max_le (by norm_num) (min_le_left _ _)
  constructor
  · nlinarith [h1]
  · nlinarith [h2]

/-- C10 witness: the out-of-range input sample 2 is clamped and converted to
    a value inside [-32767, 32767]. -/
theorem claim10_pcm_range_witness :
    -32767 ≤ pcmSample 2 ∧ pcmSample 2 ≤ 32767 :=
  claim10_pcm_range [2] (pcmSample 2) (by simp [pcmConvert])
